import Mathlib

/-
Shallow embedding of the Paytm payment-gateway relay (src/index.js).

The repository is a thin Express backend with three routes:
  POST /api/paytm/create-order  (lines 32  to 113 of the first server variant)
  POST /api/paytm/callback      (lines 120 to 153, and a second variant at 350 to 385)
  POST /api/paytm/status        (lines 161 to 215)
The source file contains two near-duplicate server variants; the two callback
variants differ in the default value of isValidChecksum, which is modelled here
by two definitions callbackV1 and callbackV2.

JavaScript data is modelled by the inductive type JsVal, covering the values a
JSON body parser or axios can deliver: undefined, null, booleans, numbers
(modelled as rationals), strings, arrays, objects.  Property access mirrors
JavaScript semantics: reading a property of null or undefined throws a
TypeError, which the route handlers catch and turn into an HTTP 500; reading a
missing property of any other value yields undefined.  Optional chaining
(a?.b) yields undefined instead of throwing.

The external collaborators are parameters of the handlers:
  - sign    models PaytmChecksum.generateSignature (payload string, key);
  - verify  models PaytmChecksum.verifySignature (body, key, checksum);
  - the axios call outcome is a GatewayOutcome: either ok with the parsed
    response data, or throw with an error message.
Each handler returns the list of observable side effects (Event) together with
the HTTP response it sends.
-/

namespace PaytmPG

/-- JavaScript value as delivered by the JSON body parser or by axios. -/
inductive JsVal where
  | undefined : JsVal
  | null : JsVal
  | bool : Bool → JsVal
  | num : ℚ → JsVal
  | str : String → JsVal
  | arr : List JsVal → JsVal
  | obj : List (String × JsVal) → JsVal

/-- Property read with optional-chaining semantics: a?.k is undefined when a is
null or undefined, the looked-up field on an object, and undefined on any other
value (JavaScript boxes primitives, and the named fields used here do not exist
on the boxes). -/
def JsVal.getOpt : JsVal → String → JsVal
  | .obj fs, k => (fs.lookup k).getD .undefined
  | _, _ => .undefined

/-- Plain property read a.k: throws a TypeError on null and undefined,
otherwise behaves like optional chaining. -/
def JsVal.getE : JsVal → String → Except String JsVal
  | .null, k => .error ("TypeError: cannot read properties of null, reading " ++ k)
  | .undefined, k => .error ("TypeError: cannot read properties of undefined, reading " ++ k)
  | v, k => .ok (v.getOpt k)

/-- JavaScript truthiness: undefined, null, false, 0 and the empty string are
falsy, everything else is truthy. -/
def JsVal.truthy : JsVal → Bool
  | .undefined => false
  | .null => false
  | .bool b => b
  | .num q => decide (q ≠ 0)
  | .str s => s ≠ ""
  | .arr _ => true
  | .obj _ => true

/-- Strict equality of a value with a string literal, as in x === "S". -/
def JsVal.isStrEq : JsVal → String → Bool
  | .str s, t => s == t
  | _, _ => false

/-- Whether an object structurally carries a field named k (before JSON
serialization, which drops undefined-valued fields). -/
def JsVal.hasKey : JsVal → String → Bool
  | .obj fs, k => (fs.lookup k).isSome
  | _, _ => false

/-- The delete operator: removes the named field from an object, and is a
no-op on every other value. -/
def JsVal.delete : JsVal → String → JsVal
  | .obj fs, k => .obj (fs.filter (fun p => p.1 != k))
  | v, _ => v

mutual

/-- Conversion of a value to a string, as by the toString method. -/
def JsVal.jsToString : JsVal → String
  | .undefined => "undefined"
  | .null => "null"
  | .bool true => "true"
  | .bool false => "false"
  | .num q => if q.den == 1 then q.num.repr else toString q
  | .str s => s
  | .arr xs => jsToStringList xs
  | .obj _ => "[object Object]"

/-- Array toString: elements separated by commas. -/
def jsToStringList : List JsVal → String
  | [] => ""
  | [v] => v.jsToString
  | v :: rest => v.jsToString ++ "," ++ jsToStringList rest

end

mutual

/-- JSON serialization of a value, modelling JSON.stringify on the payloads the
relay builds (objects of defined fields). -/
def JsVal.stringify : JsVal → String
  | .undefined => "null"
  | .null => "null"
  | .bool true => "true"
  | .bool false => "false"
  | .num q => if q.den == 1 then q.num.repr else toString q
  | .str s => "\"" ++ s ++ "\""
  | .arr xs => "[" ++ stringifyList xs ++ "]"
  | .obj fs => "\x7b" ++ stringifyFields fs ++ "\x7d"

/-- Serialization of the element list of an array. -/
def stringifyList : List JsVal → String
  | [] => ""
  | [v] => v.stringify
  | v :: rest => v.stringify ++ "," ++ stringifyList rest

/-- Serialization of the field list of an object. -/
def stringifyFields : List (String × JsVal) → String
  | [] => ""
  | [(k, v)] => "\"" ++ k ++ "\":" ++ v.stringify
  | (k, v) :: rest => "\"" ++ k ++ "\":" ++ v.stringify ++ "," ++ stringifyFields rest

end

/-- Merchant configuration resolved by paytm.config.js from the environment. -/
structure Config where
  mid : String
  key : String
  website : String
  callbackUrl : String
  host : String

/-- Outcome of the axios.post call to the gateway: a parsed response value, or
a thrown transport or parsing error carrying a message. -/
inductive GatewayOutcome where
  | ok : JsVal → GatewayOutcome
  | throw : String → GatewayOutcome

/-- Observable side effects of a handler run, in order of occurrence. -/
inductive Event where
  | log : JsVal → Event
  | sign : String → String → Event
  | gatewayCall : String → JsVal → Event
  | verify : JsVal → String → JsVal → Event

/-- HTTP response sent to the caller: status code and body (a JSON value for
the JSON routes, a string body for the callback route). -/
structure HttpResponse where
  status : Nat
  body : JsVal

/-- Order id generation (src/index.js line 22): the string
ORDER_ + Date.now() + _ + Math.floor(Math.random() * 1000), with Date.now()
modelled as a natural number of milliseconds and Math.random() as a rational
in the unit interval. -/
def generateOrderId (now : ℕ) (random : ℚ) : String :=
  "ORDER_" ++ Nat.repr now ++ "_" ++ (⌊random * 1000⌋ : ℤ).repr

/-- Evaluation of the failure test of create-order (src/index.js lines 80-84):
   not data.body, or not data.body.resultInfo, or
   data.body.resultInfo.resultStatus !== "S".
Returns ok of the test outcome, or error when a property access throws. -/
def initFails (data : JsVal) : Except String Bool :=
  match data.getE "body" with
  | .error e => .error e
  | .ok b =>
    if !b.truthy then .ok true
    else
      match b.getE "resultInfo" with
      | .error e => .error e
      | .ok ri =>
        if !ri.truthy then .ok true
        else
          match ri.getE "resultStatus" with
          | .error e => .error e
          | .ok rs => .ok (!(rs.isStrEq "S"))

/-- The success condition on a gateway response: it contains a body with a
resultInfo substructure whose resultStatus is the string S (read with
optional chaining, so this is total). -/
def initiateSucceeded (data : JsVal) : Bool :=
  (((data.getOpt "body").getOpt "resultInfo").getOpt "resultStatus").isStrEq "S"

/-- The initiate-transaction payload built by create-order (src/index.js
lines 44-57). -/
def initTxnParams (cfg : Config) (orderId : String) (amount customerId : JsVal) : JsVal :=
  .obj
    [("requestType", .str "Payment"),
     ("mid", .str cfg.mid),
     ("websiteName", .str cfg.website),
     ("orderId", .str orderId),
     ("callbackUrl", .str cfg.callbackUrl),
     ("txnAmount", .obj [("value", .str amount.jsToString), ("currency", .str "INR")]),
     ("userInfo", .obj [("custId", .str customerId.jsToString)])]

/-- The envelope transmitted to the gateway: the payload under the body field
and the signature under head (src/index.js lines 65-70 and 179-184). -/
def signedRequest (payload : JsVal) (checksum : String) : JsVal :=
  .obj [("body", payload), ("head", .obj [("signature", .str checksum)])]

/-- The status-query payload built by status-check (src/index.js
lines 169-172). -/
def statusParams (cfg : Config) (orderId : JsVal) : JsVal :=
  .obj [("mid", .str cfg.mid), ("orderId", orderId)]

/-- POST /api/paytm/create-order (src/index.js lines 32-113).  Parameters:
configuration, the PAYTM_ENVIRONMENT variable, the signature primitive, the
gateway call outcome, the clock and random source feeding generateOrderId,
and the parsed request body. -/
def createOrder (cfg : Config) (env : Option String) (sign : String → String → String)
    (gw : GatewayOutcome) (now : ℕ) (random : ℚ) (reqBody : JsVal) :
    List Event × HttpResponse :=
  let amount := reqBody.getOpt "amount"
  let customerId := reqBody.getOpt "customerId"
  if !amount.truthy || !customerId.truthy then
    ([], ⟨400, .obj [("error", .str "amount and customerId are required")]⟩)
  else
    let orderId := generateOrderId now random
    let paytmParams := initTxnParams cfg orderId amount customerId
    let checksum := sign paytmParams.stringify cfg.key
    let requestBody := signedRequest paytmParams checksum
    let url := cfg.host ++ "/theia/api/v1/initiateTransaction?mid=" ++ cfg.mid
      ++ "&orderId=" ++ orderId
    let evs := [Event.sign paytmParams.stringify cfg.key, Event.gatewayCall url requestBody]
    let resp : HttpResponse :=
      match gw with
      | .throw msg =>
        ⟨500, .obj [("error", .str "Something went wrong while creating order"),
                    ("details", .str msg)]⟩
      | .ok data =>
        match initFails data with
        | .error msg =>
          ⟨500, .obj [("error", .str "Something went wrong while creating order"),
                      ("details", .str msg)]⟩
        | .ok true =>
          ⟨400, .obj [("error", .str "Failed to initiate transaction"),
                      ("paytmResponse", data)]⟩
        | .ok false =>
          ⟨200, .obj [("mid", .str cfg.mid),
                      ("orderId", .str orderId),
                      ("amount", amount),
                      ("txnToken", (data.getOpt "body").getOpt "txnToken"),
                      ("callbackUrl", .str cfg.callbackUrl),
                      ("env", match env with | some s => JsVal.str s | none => JsVal.undefined)]⟩
    (evs, resp)

/-- POST /api/paytm/callback, first variant (src/index.js lines 120-153):
isValidChecksum starts true, so a payload with no truthy CHECKSUMHASH field is
accepted without verification. -/
def callbackV1 (key : String) (verify : JsVal → String → JsVal → Bool)
    (reqBody : JsVal) : List Event × HttpResponse :=
  let receivedData := reqBody
  let paytmChecksum := receivedData.getOpt "CHECKSUMHASH"
  let rest := receivedData.delete "CHECKSUMHASH"
  let isValidChecksum := if paytmChecksum.truthy then verify rest key paytmChecksum else true
  let evs := Event.log receivedData ::
    (if paytmChecksum.truthy then [Event.verify rest key paytmChecksum] else [])
  if !isValidChecksum then
    (evs, ⟨400, .str "Checksum mismatched"⟩)
  else
    (evs, ⟨200,
      .str "Paytm callback received. You can close this window and return to the app."⟩)

/-- POST /api/paytm/callback, second variant (src/index.js lines 350-385):
isValidChecksum starts false, so a payload with no truthy CHECKSUMHASH field is
rejected. -/
def callbackV2 (key : String) (verify : JsVal → String → JsVal → Bool)
    (reqBody : JsVal) : List Event × HttpResponse :=
  let receivedData := reqBody
  let paytmChecksum := receivedData.getOpt "CHECKSUMHASH"
  let rest := receivedData.delete "CHECKSUMHASH"
  let isValidChecksum := if paytmChecksum.truthy then verify rest key paytmChecksum else false
  let evs := Event.log receivedData ::
    (if paytmChecksum.truthy then [Event.verify rest key paytmChecksum] else [])
  if !isValidChecksum then
    (evs, ⟨400, .str "Checksum mismatched"⟩)
  else
    (evs, ⟨200, .str "Callback received. Please wait while we verify payment."⟩)

/-- POST /api/paytm/status (src/index.js lines 161-215).  The resultInfo and
resultStatus reads use optional chaining; the paytmResponse field uses a plain
property read of data.body, which throws when data is null or undefined. -/
def statusCheck (cfg : Config) (sign : String → String → String)
    (gw : GatewayOutcome) (reqBody : JsVal) : List Event × HttpResponse :=
  let orderId := reqBody.getOpt "orderId"
  if !orderId.truthy then
    ([], ⟨400, .obj [("error", .str "orderId is required")]⟩)
  else
    let body := statusParams cfg orderId
    let checksum := sign body.stringify cfg.key
    let statusRequest := signedRequest body checksum
    let url := cfg.host ++ "/v3/order/status"
    let evs := [Event.sign body.stringify cfg.key, Event.gatewayCall url statusRequest]
    let resp : HttpResponse :=
      match gw with
      | .throw msg =>
        ⟨500, .obj [("error", .str "Something went wrong while checking status"),
                    ("details", .str msg)]⟩
      | .ok data =>
        let resultInfo := (data.getOpt "body").getOpt "resultInfo"
        let txnStatus := resultInfo.getOpt "resultStatus"
        match data.getE "body" with
        | .error msg =>
          ⟨500, .obj [("error", .str "Something went wrong while checking status"),
                      ("details", .str msg)]⟩
        | .ok db =>
          ⟨200, .obj [("orderId", orderId),
                      ("status", txnStatus),
                      ("resultInfo", resultInfo),
                      ("paytmResponse", db)]⟩
    (evs, resp)

/-- Optional chaining on a falsy base yields undefined: falsy values are
undefined, null, false, 0 and the empty string, none of which is an object. -/
theorem JsVal.getOpt_falsy (v : JsVal) (h : v.truthy = false) (k : String) :
    v.getOpt k = .undefined := by
  cases v <;> simp_all [JsVal.truthy, JsVal.getOpt]

/-- A plain property read does not throw on a value other than null and
undefined, and then agrees with optional chaining. -/
theorem JsVal.getE_ok (v : JsVal) (k : String) (hn : v ≠ .null) (hu : v ≠ .undefined) :
    v.getE k = .ok (v.getOpt k) := by
  cases v <;> simp_all [JsVal.getE]

/-- A plain property read does not throw on a truthy value. -/
theorem JsVal.getE_ok_of_truthy (v : JsVal) (k : String) (h : v.truthy = true) :
    v.getE k = .ok (v.getOpt k) := by
  cases v <;> simp_all [JsVal.truthy, JsVal.getE]

/-- Optional chaining on undefined yields undefined. -/
theorem JsVal.getOpt_undefined (k : String) : JsVal.undefined.getOpt k = .undefined := rfl

/-- Undefined is strictly unequal to every string. -/
theorem JsVal.isStrEq_undefined (s : String) : JsVal.undefined.isStrEq s = false := rfl

/-- On any gateway response other than null and undefined, the failure test of
create-order computes, and is exactly the negation of the success condition. -/
theorem initFails_eq (data : JsVal) (hn : data ≠ .null) (hu : data ≠ .undefined) :
    initFails data = .ok (!(initiateSucceeded data)) := by
  have hbE := JsVal.getE_ok data "body" hn hu
  unfold initFails initiateSucceeded
  cases hb : (data.getOpt "body").truthy with
  | false =>
    have h1 : ∀ k, (data.getOpt "body").getOpt k = .undefined := JsVal.getOpt_falsy _ hb
    simp [hbE, hb, h1, JsVal.getOpt_undefined, JsVal.isStrEq_undefined]
  | true =>
    have h2 := JsVal.getE_ok_of_truthy (data.getOpt "body") "resultInfo" hb
    cases hri : ((data.getOpt "body").getOpt "resultInfo").truthy with
    | false =>
      have h3 : ∀ k, ((data.getOpt "body").getOpt "resultInfo").getOpt k = .undefined :=
        JsVal.getOpt_falsy _ hri
      simp [hbE, hb, h2, hri, h3, JsVal.isStrEq_undefined]
    | true =>
      have h4 := JsVal.getE_ok_of_truthy ((data.getOpt "body").getOpt "resultInfo")
        "resultStatus" hri
      simp [hbE, hb, h2, hri, h4]

/-- If the failure test computed and reported no failure, the success condition
holds. -/
theorem initiateSucceeded_of_initFails (data : JsVal)
    (h : initFails data = .ok false) : initiateSucceeded data = true := by
  have hn : data ≠ .null := by rintro rfl; simp [initFails, JsVal.getE] at h
  have hu : data ≠ .undefined := by rintro rfl; simp [initFails, JsVal.getE] at h
  rw [initFails_eq data hn hu] at h
  simpa using h

/-- Response of create-order on a validated request when the gateway call
returns data: dispatch over the failure test. -/
theorem createOrder_resp_ok (cfg : Config) (env : Option String)
    (sign : String → String → String) (now : ℕ) (random : ℚ) (reqBody : JsVal)
    (data : JsVal)
    (ha : (reqBody.getOpt "amount").truthy = true)
    (hc : (reqBody.getOpt "customerId").truthy = true) :
    (createOrder cfg env sign (.ok data) now random reqBody).2 =
      match initFails data with
      | .error msg =>
        ⟨500, .obj [("error", .str "Something went wrong while creating order"),
                    ("details", .str msg)]⟩
      | .ok true =>
        ⟨400, .obj [("error", .str "Failed to initiate transaction"),
                    ("paytmResponse", data)]⟩
      | .ok false =>
        ⟨200, .obj [("mid", .str cfg.mid),
                    ("orderId", .str (generateOrderId now random)),
                    ("amount", reqBody.getOpt "amount"),
                    ("txnToken", (data.getOpt "body").getOpt "txnToken"),
                    ("callbackUrl", .str cfg.callbackUrl),
                    ("env", match env with | some s => JsVal.str s | none => JsVal.undefined)]⟩ := by
  simp [createOrder, ha, hc]

/-- Response of create-order on a validated request when the gateway call
throws. -/
theorem createOrder_resp_throw (cfg : Config) (env : Option String)
    (sign : String → String → String) (now : ℕ) (random : ℚ) (reqBody : JsVal)
    (msg : String)
    (ha : (reqBody.getOpt "amount").truthy = true)
    (hc : (reqBody.getOpt "customerId").truthy = true) :
    (createOrder cfg env sign (.throw msg) now random reqBody).2 =
      ⟨500, .obj [("error", .str "Something went wrong while creating order"),
                  ("details", .str msg)]⟩ := by
  simp [createOrder, ha, hc]

/-- Response of status-check on a validated request when the gateway call
returns data: dispatch over the plain read of data.body. -/
theorem statusCheck_resp_ok (cfg : Config) (sign : String → String → String)
    (reqBody : JsVal) (data : JsVal)
    (ho : (reqBody.getOpt "orderId").truthy = true) :
    (statusCheck cfg sign (.ok data) reqBody).2 =
      match data.getE "body" with
      | .error msg =>
        ⟨500, .obj [("error", .str "Something went wrong while checking status"),
                    ("details", .str msg)]⟩
      | .ok db =>
        ⟨200, .obj [("orderId", reqBody.getOpt "orderId"),
                    ("status", ((data.getOpt "body").getOpt "resultInfo").getOpt "resultStatus"),
                    ("resultInfo", (data.getOpt "body").getOpt "resultInfo"),
                    ("paytmResponse", db)]⟩ := by
  simp [statusCheck, ho]

/-- C5: for every create-order request where amount or customerId is missing or
falsy, and for every status-check request where orderId is missing or falsy,
the operation returns HTTP 400 with the documented error body and performs no
outbound gateway call and no signature computation (the event trace is empty). -/
theorem missing_input_rejected (cfg : Config) (env : Option String)
    (sign : String → String → String) (gw : GatewayOutcome)
    (now : ℕ) (random : ℚ) (req1 req2 : JsVal)
    (h : (req1.getOpt "amount").truthy = false ∨ (req1.getOpt "customerId").truthy = false)
    (ho : (req2.getOpt "orderId").truthy = false) :
    createOrder cfg env sign gw now random req1 =
      ([], ⟨400, .obj [("error", .str "amount and customerId are required")]⟩)
    ∧ statusCheck cfg sign gw req2 =
      ([], ⟨400, .obj [("error", .str "orderId is required")]⟩) := by
  constructor
  · rcases h with h | h <;> simp [createOrder, h]
  · simp [statusCheck, ho]

/-- Witness for missing_input_rejected: a request carrying only an amount, and
a status request with an empty body. -/
theorem missing_input_rejected_witness :
    (((JsVal.obj [("amount", JsVal.num 100)]).getOpt "customerId").truthy = false)
    ∧ (createOrder ⟨"M", "K", "W", "C", "H"⟩ none (fun _ _ => "S") (.ok .null) 0 0
        (JsVal.obj [("amount", JsVal.num 100)]) =
        ([], ⟨400, .obj [("error", .str "amount and customerId are required")]⟩)
      ∧ statusCheck ⟨"M", "K", "W", "C", "H"⟩ (fun _ _ => "S") (.ok .null) (JsVal.obj []) =
        ([], ⟨400, .obj [("error", .str "orderId is required")]⟩)) :=
  ⟨by decide,
   missing_input_rejected ⟨"M", "K", "W", "C", "H"⟩ none (fun _ _ => "S") (.ok .null) 0 0
     (JsVal.obj [("amount", JsVal.num 100)]) (JsVal.obj [])
     (Or.inr (by decide)) (by decide)⟩

/-- C7: for every callback request, in both variants, an audit log entry of the
raw received payload (including any CHECKSUMHASH field) is the first emitted
event, before signature detachment and verification, for every verification
outcome. -/
theorem callback_logs_before_verification (key : String)
    (verify : JsVal → String → JsVal → Bool) (reqBody : JsVal) :
    (∃ rest, (callbackV1 key verify reqBody).1 = Event.log reqBody :: rest)
    ∧ (∃ rest, (callbackV2 key verify reqBody).1 = Event.log reqBody :: rest) := by
  constructor
  · refine ⟨if (reqBody.getOpt "CHECKSUMHASH").truthy
        then [Event.verify (reqBody.delete "CHECKSUMHASH") key (reqBody.getOpt "CHECKSUMHASH")]
        else [], ?_⟩
    simp only [callbackV1]
    split <;> first | rfl | (split <;> rfl)
  · refine ⟨if (reqBody.getOpt "CHECKSUMHASH").truthy
        then [Event.verify (reqBody.delete "CHECKSUMHASH") key (reqBody.getOpt "CHECKSUMHASH")]
        else [], ?_⟩
    simp only [callbackV2]
    split <;> first | rfl | (split <;> rfl)

/-- C10: with the request and the gateway outcome held fixed, the response of
create-order and of status-check is independent of the configured merchant
secret key: the key only influences the signature sent to the gateway. -/
theorem responses_independent_of_secret_key (mid website cb host k1 k2 : String)
    (env : Option String) (sign : String → String → String) (gw : GatewayOutcome)
    (now : ℕ) (random : ℚ) (req1 req2 : JsVal) :
    (createOrder ⟨mid, k1, website, cb, host⟩ env sign gw now random req1).2 =
      (createOrder ⟨mid, k2, website, cb, host⟩ env sign gw now random req1).2
    ∧ (statusCheck ⟨mid, k1, website, cb, host⟩ sign gw req2).2 =
      (statusCheck ⟨mid, k2, website, cb, host⟩ sign gw req2).2 := by
  constructor <;> (simp only [createOrder, statusCheck]; split <;> rfl)

/-- Every character produced by Nat.digitChar on a value below ten is a decimal
digit. -/
theorem digitChar_isDigit : ∀ m : ℕ, m < 10 → (Nat.digitChar m).isDigit = true := by
  decide

/-- The characters accumulated by Nat.toDigitsCore in base ten are decimal
digits, provided the accumulator already holds only digits. -/
theorem toDigitsCore_digits (fuel : ℕ) : ∀ (n : ℕ) (ds : List Char),
    (∀ c ∈ ds, c.isDigit = true) →
    ∀ c ∈ Nat.toDigitsCore 10 fuel n ds, c.isDigit = true := by
  induction fuel with
  | zero =>
    intro n ds hds c hc
    simp only [Nat.toDigitsCore] at hc
    exact hds c hc
  | succ f ih =>
    intro n ds hds c hc
    simp only [Nat.toDigitsCore] at hc
    by_cases h : n / 10 = 0
    · rw [if_pos h] at hc
      rcases List.mem_cons.mp hc with rfl | hmem
      · exact digitChar_isDigit _ (Nat.mod_lt _ (by norm_num))
      · exact hds _ hmem
    · rw [if_neg h] at hc
      refine ih (n / 10) _ ?_ c hc
      intro c' hc'
      rcases List.mem_cons.mp hc' with rfl | hmem
      · exact digitChar_isDigit _ (Nat.mod_lt _ (by norm_num))
      · exact hds _ hmem

/-- The decimal representation of a natural number consists of digit
characters only. -/
theorem nat_repr_digits (n : ℕ) : ∀ c ∈ (Nat.repr n).data, c.isDigit = true := by
  intro c hc
  exact toDigitsCore_digits (n + 1) n [] (by intro c h; cases h) c hc

/-- The decimal representation of a nonnegative integer agrees with that of
the corresponding natural number. -/
theorem int_repr_nonneg (m : ℤ) (h : 0 ≤ m) : m.repr = Nat.repr m.toNat := by
  cases m with
  | ofNat k => rfl
  | negSucc k => exact absurd h (by simp)

/-- C8: every order identifier produced during create-order is the
concatenation of the prefix ORDER_, the millisecond timestamp, an underscore,
and the decimal representation of a natural number below 1000 obtained as the
floor of the random sample scaled by 1000; both numeric parts are digit
strings. -/
theorem generateOrderId_shape (now : ℕ) (random : ℚ)
    (h0 : 0 ≤ random) (h1 : random < 1) :
    ∃ n : ℕ, n < 1000 ∧
      generateOrderId now random = "ORDER_" ++ Nat.repr now ++ "_" ++ Nat.repr n
      ∧ (∀ c ∈ (Nat.repr now).data, c.isDigit = true)
      ∧ (∀ c ∈ (Nat.repr n).data, c.isDigit = true) := by
  refine ⟨(⌊random * 1000⌋).toNat, ?_, ?_, nat_repr_digits now, nat_repr_digits _⟩
  · have hlt : ⌊random * 1000⌋ < 1000 := by
      refine Int.floor_lt.mpr ?_
      push_cast
      nlinarith
    omega
  · unfold generateOrderId
    have hge : 0 ≤ ⌊random * 1000⌋ := Int.floor_nonneg.mpr (by positivity)
    rw [int_repr_nonneg _ hge]

/-- Witness for generateOrderId_shape at a concrete timestamp and random
sample. -/
theorem generateOrderId_shape_witness :
    0 ≤ (1 : ℚ)/2 ∧ (1 : ℚ)/2 < 1 ∧
    ∃ n : ℕ, n < 1000 ∧
      generateOrderId 1700000000000 (1/2) =
        "ORDER_" ++ Nat.repr 1700000000000 ++ "_" ++ Nat.repr n
      ∧ (∀ c ∈ (Nat.repr 1700000000000).data, c.isDigit = true)
      ∧ (∀ c ∈ (Nat.repr n).data, c.isDigit = true) :=
  ⟨by norm_num, by norm_num,
   generateOrderId_shape 1700000000000 (1/2) (by norm_num) (by norm_num)⟩

/-- C1 counterexample: with amount and customerId present, a gateway call that
resolves with the JSON value null yields HTTP 500 (the read data.body throws
inside the try block and is caught), although the response lacks the
result-info substructure, where the claim requires HTTP 400. -/
theorem create_order_null_response_500 :
    ((createOrder ⟨"M", "K", "W", "C", "H"⟩ (some "TEST") (fun _ _ => "SIG") (.ok .null) 0 0
        (JsVal.obj [("amount", JsVal.num 100),
                    ("customerId", JsVal.str "cust1")])).2.status = 500)
    ∧ initiateSucceeded JsVal.null = false := by
  constructor <;> rfl

/-- C1 amended: for a create-order request with amount and customerId present
and truthy, the operation returns HTTP 200 exactly when the gateway response
satisfies the success condition; a gateway response other than null and
undefined that fails the condition yields HTTP 400 surfacing the raw response;
a null or undefined gateway response yields HTTP 500; and a thrown gateway
call yields HTTP 500 surfacing the underlying message. -/
theorem create_order_gateway_outcomes (cfg : Config) (env : Option String)
    (sign : String → String → String) (now : ℕ) (random : ℚ) (reqBody : JsVal)
    (ha : (reqBody.getOpt "amount").truthy = true)
    (hc : (reqBody.getOpt "customerId").truthy = true) :
    (∀ data, ((createOrder cfg env sign (.ok data) now random reqBody).2.status = 200)
        ↔ initiateSucceeded data = true)
    ∧ (∀ data, initiateSucceeded data = true →
        (createOrder cfg env sign (.ok data) now random reqBody).2 =
          ⟨200, .obj [("mid", .str cfg.mid),
                      ("orderId", .str (generateOrderId now random)),
                      ("amount", reqBody.getOpt "amount"),
                      ("txnToken", (data.getOpt "body").getOpt "txnToken"),
                      ("callbackUrl", .str cfg.callbackUrl),
                      ("env", match env with | some s => JsVal.str s | none => JsVal.undefined)]⟩)
    ∧ (∀ data, data ≠ .null → data ≠ .undefined → initiateSucceeded data = false →
        (createOrder cfg env sign (.ok data) now random reqBody).2 =
          ⟨400, .obj [("error", .str "Failed to initiate transaction"),
                      ("paytmResponse", data)]⟩)
    ∧ ((createOrder cfg env sign (.ok .null) now random reqBody).2.status = 500)
    ∧ ((createOrder cfg env sign (.ok .undefined) now random reqBody).2.status = 500)
    ∧ (∀ msg, (createOrder cfg env sign (.throw msg) now random reqBody).2 =
        ⟨500, .obj [("error", .str "Something went wrong while creating order"),
                    ("details", .str msg)]⟩) := by
  refine ⟨?_, ?_, ?_, ?_, ?_, ?_⟩
  · intro data
    rw [createOrder_resp_ok cfg env sign now random reqBody data ha hc]
    by_cases hn : data = .null
    · subst hn
      simp [initFails, JsVal.getE, initiateSucceeded, JsVal.getOpt, JsVal.isStrEq]
    · by_cases hu : data = .undefined
      · subst hu
        simp [initFails, JsVal.getE, initiateSucceeded, JsVal.getOpt, JsVal.isStrEq]
      · rw [initFails_eq data hn hu]
        cases hS : initiateSucceeded data <;> simp
  · intro data hS
    have hn : data ≠ .null := by
      rintro rfl
      simp [initiateSucceeded, JsVal.getOpt, JsVal.isStrEq] at hS
    have hu : data ≠ .undefined := by
      rintro rfl
      simp [initiateSucceeded, JsVal.getOpt, JsVal.isStrEq] at hS
    rw [createOrder_resp_ok cfg env sign now random reqBody data ha hc,
      initFails_eq data hn hu, hS]
    rfl
  · intro data hn hu hS
    rw [createOrder_resp_ok cfg env sign now random reqBody data ha hc,
      initFails_eq data hn hu, hS]
    rfl
  · rw [createOrder_resp_ok cfg env sign now random reqBody .null ha hc]
    rfl
  · rw [createOrder_resp_ok cfg env sign now random reqBody .undefined ha hc]
    rfl
  · intro msg
    exact createOrder_resp_throw cfg env sign now random reqBody msg ha hc

/-- Witness for create_order_gateway_outcomes: a successful initiate call at a
concrete request and gateway response. -/
theorem create_order_gateway_outcomes_witness :
    ((createOrder ⟨"M", "K", "W", "C", "H"⟩ (some "TEST") (fun _ _ => "SIG")
        (.ok (JsVal.obj [("body", JsVal.obj
          [("resultInfo", JsVal.obj [("resultStatus", JsVal.str "S")]),
           ("txnToken", JsVal.str "TOK123")])])) 0 0
        (JsVal.obj [("amount", JsVal.num 100),
                    ("customerId", JsVal.str "cust1")])).2.status = 200) :=
  ((create_order_gateway_outcomes ⟨"M", "K", "W", "C", "H"⟩ (some "TEST") (fun _ _ => "SIG")
      0 0 (JsVal.obj [("amount", JsVal.num 100), ("customerId", JsVal.str "cust1")])
      (by decide) (by decide)).1
    (JsVal.obj [("body", JsVal.obj
      [("resultInfo", JsVal.obj [("resultStatus", JsVal.str "S")]),
       ("txnToken", JsVal.str "TOK123")])])).mpr (by decide)

/-- C2 counterexample: a gateway response whose resultStatus is S but which
carries no txnToken field produces an HTTP 200 success payload whose txnToken
is undefined, hence absent after JSON serialization: create-order can return a
success payload without a transaction token. -/
theorem create_order_success_without_token :
    ((createOrder ⟨"M", "K", "W", "C", "H"⟩ (some "TEST") (fun _ _ => "SIG")
        (.ok (JsVal.obj [("body", JsVal.obj
          [("resultInfo", JsVal.obj [("resultStatus", JsVal.str "S")])])])) 0 0
        (JsVal.obj [("amount", JsVal.num 100),
                    ("customerId", JsVal.str "cust1")])).2.status = 200)
    ∧ ((createOrder ⟨"M", "K", "W", "C", "H"⟩ (some "TEST") (fun _ _ => "SIG")
        (.ok (JsVal.obj [("body", JsVal.obj
          [("resultInfo", JsVal.obj [("resultStatus", JsVal.str "S")])])])) 0 0
        (JsVal.obj [("amount", JsVal.num 100),
                    ("customerId", JsVal.str "cust1")])).2.body.getOpt "txnToken"
      = JsVal.undefined) := by
  constructor <;> rfl

/-- C2 amended: for a validated create-order request, every HTTP 200 response
carries as txnToken exactly the value of body.txnToken in the gateway
response (undefined when the gateway omits it), and HTTP 200 occurs only when
the gateway reported success. -/
theorem create_order_token_passthrough (cfg : Config) (env : Option String)
    (sign : String → String → String) (now : ℕ) (random : ℚ) (reqBody : JsVal)
    (data : JsVal)
    (ha : (reqBody.getOpt "amount").truthy = true)
    (hc : (reqBody.getOpt "customerId").truthy = true)
    (h200 : (createOrder cfg env sign (.ok data) now random reqBody).2.status = 200) :
    ((createOrder cfg env sign (.ok data) now random reqBody).2.body.getOpt "txnToken"
      = (data.getOpt "body").getOpt "txnToken")
    ∧ initiateSucceeded data = true := by
  have hresp := createOrder_resp_ok cfg env sign now random reqBody data ha hc
  cases hI : initFails data with
  | error msg =>
    rw [hI] at hresp
    rw [hresp] at h200
    simp at h200
  | ok b =>
    cases b with
    | true =>
      rw [hI] at hresp
      rw [hresp] at h200
      simp at h200
    | false =>
      rw [hI] at hresp
      rw [hresp]
      exact ⟨rfl, initiateSucceeded_of_initFails data hI⟩

/-- Witness for create_order_token_passthrough at a concrete successful
gateway response. -/
theorem create_order_token_passthrough_witness :
    ((createOrder ⟨"M", "K", "W", "C", "H"⟩ (some "TEST") (fun _ _ => "SIG")
        (.ok (JsVal.obj [("body", JsVal.obj
          [("resultInfo", JsVal.obj [("resultStatus", JsVal.str "S")]),
           ("txnToken", JsVal.str "TOK123")])])) 0 0
        (JsVal.obj [("amount", JsVal.num 100),
                    ("customerId", JsVal.str "cust1")])).2.body.getOpt "txnToken"
      = ((JsVal.obj [("body", JsVal.obj
          [("resultInfo", JsVal.obj [("resultStatus", JsVal.str "S")]),
           ("txnToken", JsVal.str "TOK123")])]).getOpt "body").getOpt "txnToken")
    ∧ initiateSucceeded (JsVal.obj [("body", JsVal.obj
        [("resultInfo", JsVal.obj [("resultStatus", JsVal.str "S")]),
         ("txnToken", JsVal.str "TOK123")])]) = true :=
  create_order_token_passthrough ⟨"M", "K", "W", "C", "H"⟩ (some "TEST") (fun _ _ => "SIG")
    0 0 (JsVal.obj [("amount", JsVal.num 100), ("customerId", JsVal.str "cust1")])
    (JsVal.obj [("body", JsVal.obj
      [("resultInfo", JsVal.obj [("resultStatus", JsVal.str "S")]),
       ("txnToken", JsVal.str "TOK123")])])
    (by decide) (by decide) (by decide)

/-- C3 counterexample: a payload that contains a CHECKSUMHASH field holding
the empty string (present but falsy) is not verified by either variant, and
the two variants disagree on it: variant 1 accepts with 200, variant 2
rejects with 400; so they do not verify every payload containing the field,
and they do not differ only on payloads lacking the field. -/
theorem callback_variants_empty_checksum_disagree :
    ((JsVal.obj [("ORDERID", JsVal.str "X"),
                 ("CHECKSUMHASH", JsVal.str "")]).hasKey "CHECKSUMHASH" = true)
    ∧ ((callbackV1 "K" (fun _ _ _ => false)
        (JsVal.obj [("ORDERID", JsVal.str "X"),
                    ("CHECKSUMHASH", JsVal.str "")])).2.status = 200)
    ∧ ((callbackV2 "K" (fun _ _ _ => false)
        (JsVal.obj [("ORDERID", JsVal.str "X"),
                    ("CHECKSUMHASH", JsVal.str "")])).2.status = 400)
    ∧ ((callbackV1 "K" (fun _ _ _ => false)
        (JsVal.obj [("ORDERID", JsVal.str "X"),
                    ("CHECKSUMHASH", JsVal.str "")])).1
      = [Event.log (JsVal.obj [("ORDERID", JsVal.str "X"),
                               ("CHECKSUMHASH", JsVal.str "")])])
    ∧ ((callbackV2 "K" (fun _ _ _ => false)
        (JsVal.obj [("ORDERID", JsVal.str "X"),
                    ("CHECKSUMHASH", JsVal.str "")])).1
      = [Event.log (JsVal.obj [("ORDERID", JsVal.str "X"),
                               ("CHECKSUMHASH", JsVal.str "")])]) := by
  refine ⟨rfl, rfl, rfl, rfl, rfl⟩

/-- C3 amended: the two callback variants agree on every payload whose
CHECKSUMHASH field is present and truthy (a non-empty string): both verify the
detached payload against the configured key, both respond 400 with Checksum
mismatched when verification fails, and both respond 200 when it succeeds;
they differ exactly on payloads whose CHECKSUMHASH is absent or falsy, which
neither variant verifies: variant 1 responds 200 and variant 2 responds
400. -/
theorem callback_variants_policy (key : String) (verify : JsVal → String → JsVal → Bool)
    (reqBody : JsVal) :
    ((reqBody.getOpt "CHECKSUMHASH").truthy = true →
      ((callbackV1 key verify reqBody).2.status = (callbackV2 key verify reqBody).2.status)
      ∧ ((callbackV1 key verify reqBody).1
          = [Event.log reqBody,
             Event.verify (reqBody.delete "CHECKSUMHASH") key (reqBody.getOpt "CHECKSUMHASH")])
      ∧ ((callbackV2 key verify reqBody).1
          = [Event.log reqBody,
             Event.verify (reqBody.delete "CHECKSUMHASH") key (reqBody.getOpt "CHECKSUMHASH")])
      ∧ (verify (reqBody.delete "CHECKSUMHASH") key (reqBody.getOpt "CHECKSUMHASH") = false →
          (callbackV1 key verify reqBody).2 = ⟨400, .str "Checksum mismatched"⟩
          ∧ (callbackV2 key verify reqBody).2 = ⟨400, .str "Checksum mismatched"⟩)
      ∧ (verify (reqBody.delete "CHECKSUMHASH") key (reqBody.getOpt "CHECKSUMHASH") = true →
          (callbackV1 key verify reqBody).2.status = 200
          ∧ (callbackV2 key verify reqBody).2.status = 200))
    ∧ ((reqBody.getOpt "CHECKSUMHASH").truthy = false →
      ((callbackV1 key verify reqBody).2.status = 200)
      ∧ ((callbackV2 key verify reqBody).2 = ⟨400, .str "Checksum mismatched"⟩)
      ∧ ((callbackV1 key verify reqBody).1 = [Event.log reqBody])
      ∧ ((callbackV2 key verify reqBody).1 = [Event.log reqBody])) := by
  constructor
  · intro ht
    cases hv : verify (reqBody.delete "CHECKSUMHASH") key (reqBody.getOpt "CHECKSUMHASH") <;>
      simp [callbackV1, callbackV2, ht, hv]
  · intro hf
    simp [callbackV1, callbackV2, hf]

/-- Witness for callback_variants_policy: both variants accept a payload with
a truthy checksum that the verifier accepts. -/
theorem callback_variants_policy_witness :
    ((callbackV1 "K" (fun _ _ c => c.isStrEq "abc")
        (JsVal.obj [("ORDERID", JsVal.str "X"),
                    ("CHECKSUMHASH", JsVal.str "abc")])).2.status = 200)
    ∧ ((callbackV2 "K" (fun _ _ c => c.isStrEq "abc")
        (JsVal.obj [("ORDERID", JsVal.str "X"),
                    ("CHECKSUMHASH", JsVal.str "abc")])).2.status = 200) :=
  ((callback_variants_policy "K" (fun _ _ c => c.isStrEq "abc")
      (JsVal.obj [("ORDERID", JsVal.str "X"),
                  ("CHECKSUMHASH", JsVal.str "abc")])).1
    (by decide)).2.2.2.2 (by decide)

/-- C4 counterexample: a status-check whose gateway response reports
TXN_SUCCESS returns the raw string TXN_SUCCESS in the status field, not the
normalized local value SUCCESS. -/
theorem status_returns_raw_txn_success :
    ((statusCheck ⟨"M", "K", "W", "C", "H"⟩ (fun _ _ => "SIG")
        (.ok (JsVal.obj [("body", JsVal.obj
          [("resultInfo", JsVal.obj [("resultStatus", JsVal.str "TXN_SUCCESS")])])]))
        (JsVal.obj [("orderId", JsVal.str "OID1")])).2.body.getOpt "status"
      = JsVal.str "TXN_SUCCESS")
    ∧ JsVal.str "TXN_SUCCESS" ≠ JsVal.str "SUCCESS" := by
  constructor
  · rfl
  · simp only [ne_eq, JsVal.str.injEq]
    decide

/-- C4 amended: for every status-check request with a truthy orderId and a
gateway response other than null and undefined, the handler responds HTTP 200
and the status field handed to the caller is the raw gateway resultStatus read
with optional chaining (undefined when absent), with no normalization and no
crash on unrecognized codes. -/
theorem status_raw_status_passthrough (cfg : Config) (sign : String → String → String)
    (req data : JsVal)
    (ho : (req.getOpt "orderId").truthy = true)
    (hn : data ≠ .null) (hu : data ≠ .undefined) :
    ((statusCheck cfg sign (.ok data) req).2.status = 200)
    ∧ ((statusCheck cfg sign (.ok data) req).2.body.getOpt "status"
        = ((data.getOpt "body").getOpt "resultInfo").getOpt "resultStatus") := by
  have hresp := statusCheck_resp_ok cfg sign req data ho
  rw [JsVal.getE_ok data "body" hn hu] at hresp
  rw [hresp]
  exact ⟨rfl, rfl⟩

/-- Witness for status_raw_status_passthrough at a concrete pending status. -/
theorem status_raw_status_passthrough_witness :
    ((statusCheck ⟨"M", "K", "W", "C", "H"⟩ (fun _ _ => "SIG")
        (.ok (JsVal.obj [("body", JsVal.obj
          [("resultInfo", JsVal.obj [("resultStatus", JsVal.str "PENDING")])])]))
        (JsVal.obj [("orderId", JsVal.str "OID1")])).2.status = 200)
    ∧ ((statusCheck ⟨"M", "K", "W", "C", "H"⟩ (fun _ _ => "SIG")
        (.ok (JsVal.obj [("body", JsVal.obj
          [("resultInfo", JsVal.obj [("resultStatus", JsVal.str "PENDING")])])]))
        (JsVal.obj [("orderId", JsVal.str "OID1")])).2.body.getOpt "status"
      = (((JsVal.obj [("body", JsVal.obj
          [("resultInfo", JsVal.obj [("resultStatus", JsVal.str "PENDING")])])]).getOpt
            "body").getOpt "resultInfo").getOpt "resultStatus") :=
  status_raw_status_passthrough ⟨"M", "K", "W", "C", "H"⟩ (fun _ _ => "SIG")
    (JsVal.obj [("orderId", JsVal.str "OID1")])
    (JsVal.obj [("body", JsVal.obj
      [("resultInfo", JsVal.obj [("resultStatus", JsVal.str "PENDING")])])])
    (by decide) (by intro h; exact JsVal.noConfusion h) (by intro h; exact JsVal.noConfusion h)

/-- C9: for a status-check request with a truthy orderId, any object-shaped
gateway response lacking a body field, or whose body lacks a resultInfo
field, still produces HTTP 200 with undefined status and resultInfo fields:
the guarded reads never throw and the error branch is not taken. -/
theorem status_tolerates_missing_fields (cfg : Config) (sign : String → String → String)
    (req data : JsVal) (fs : List (String × JsVal))
    (ho : (req.getOpt "orderId").truthy = true)
    (hobj : data = JsVal.obj fs)
    (hmiss : (data.getOpt "body") = .undefined
      ∨ ((data.getOpt "body").getOpt "resultInfo") = .undefined) :
    ((statusCheck cfg sign (.ok data) req).2.status = 200)
    ∧ ((statusCheck cfg sign (.ok data) req).2.body.getOpt "status" = JsVal.undefined)
    ∧ ((statusCheck cfg sign (.ok data) req).2.body.getOpt "resultInfo" = JsVal.undefined) := by
  have hn : data ≠ .null := by rw [hobj]; intro h; exact JsVal.noConfusion h
  have hu : data ≠ .undefined := by rw [hobj]; intro h; exact JsVal.noConfusion h
  have hri : ((data.getOpt "body").getOpt "resultInfo") = .undefined := by
    rcases hmiss with h | h
    · rw [h]; rfl
    · exact h
  have hresp := statusCheck_resp_ok cfg sign req data ho
  rw [JsVal.getE_ok data "body" hn hu] at hresp
  rw [hresp]
  refine ⟨rfl, ?_, ?_⟩
  · rw [hri]; rfl
  · rw [hri]; rfl

/-- Witness for status_tolerates_missing_fields: an empty-object gateway
response. -/
theorem status_tolerates_missing_fields_witness :
    ((statusCheck ⟨"M", "K", "W", "C", "H"⟩ (fun _ _ => "SIG") (.ok (JsVal.obj []))
        (JsVal.obj [("orderId", JsVal.str "OID1")])).2.status = 200)
    ∧ ((statusCheck ⟨"M", "K", "W", "C", "H"⟩ (fun _ _ => "SIG") (.ok (JsVal.obj []))
        (JsVal.obj [("orderId", JsVal.str "OID1")])).2.body.getOpt "status" = JsVal.undefined)
    ∧ ((statusCheck ⟨"M", "K", "W", "C", "H"⟩ (fun _ _ => "SIG") (.ok (JsVal.obj []))
        (JsVal.obj [("orderId", JsVal.str "OID1")])).2.body.getOpt "resultInfo"
      = JsVal.undefined) :=
  status_tolerates_missing_fields ⟨"M", "K", "W", "C", "H"⟩ (fun _ _ => "SIG")
    (JsVal.obj [("orderId", JsVal.str "OID1")]) (JsVal.obj []) []
    (by decide) rfl (Or.inl rfl)

/-- C6: in create-order and in status-check, the string handed to the
signature primitive is exactly the JSON serialization of the very object
transmitted to the gateway under the body field of the request envelope. -/
theorem signed_payload_matches_transmitted_body (cfg : Config) (env : Option String)
    (sign : String → String → String) (gw1 gw2 : GatewayOutcome)
    (now : ℕ) (random : ℚ) (req1 req2 : JsVal)
    (ha : (req1.getOpt "amount").truthy = true)
    (hc : (req1.getOpt "customerId").truthy = true)
    (ho : (req2.getOpt "orderId").truthy = true) :
    (∃ s u B, (createOrder cfg env sign gw1 now random req1).1
        = [Event.sign s cfg.key, Event.gatewayCall u B]
      ∧ s = (B.getOpt "body").stringify)
    ∧ (∃ s u B, (statusCheck cfg sign gw2 req2).1
        = [Event.sign s cfg.key, Event.gatewayCall u B]
      ∧ s = (B.getOpt "body").stringify) := by
  constructor
  · have h1 : (createOrder cfg env sign gw1 now random req1).1 =
        [Event.sign (initTxnParams cfg (generateOrderId now random)
            (req1.getOpt "amount") (req1.getOpt "customerId")).stringify cfg.key,
         Event.gatewayCall
           (cfg.host ++ "/theia/api/v1/initiateTransaction?mid=" ++ cfg.mid
             ++ "&orderId=" ++ generateOrderId now random)
           (signedRequest
             (initTxnParams cfg (generateOrderId now random)
               (req1.getOpt "amount") (req1.getOpt "customerId"))
             (sign (initTxnParams cfg (generateOrderId now random)
               (req1.getOpt "amount") (req1.getOpt "customerId")).stringify cfg.key))] := by
      simp [createOrder, ha, hc]
    exact ⟨_, _, _, h1, rfl⟩
  · have h2 : (statusCheck cfg sign gw2 req2).1 =
        [Event.sign (statusParams cfg (req2.getOpt "orderId")).stringify cfg.key,
         Event.gatewayCall (cfg.host ++ "/v3/order/status")
           (signedRequest (statusParams cfg (req2.getOpt "orderId"))
             (sign (statusParams cfg (req2.getOpt "orderId")).stringify cfg.key))] := by
      simp [statusCheck, ho]
    exact ⟨_, _, _, h2, rfl⟩

/-- Witness for signed_payload_matches_transmitted_body at concrete valid
requests. -/
theorem signed_payload_matches_transmitted_body_witness :
    (∃ s u B, (createOrder ⟨"M", "K", "W", "C", "H"⟩ (some "TEST") (fun _ _ => "SIG")
        (.throw "network down") 0 0
        (JsVal.obj [("amount", JsVal.num 100), ("customerId", JsVal.str "cust1")])).1
        = [Event.sign s "K", Event.gatewayCall u B]
      ∧ s = (B.getOpt "body").stringify)
    ∧ (∃ s u B, (statusCheck ⟨"M", "K", "W", "C", "H"⟩ (fun _ _ => "SIG")
        (.throw "network down") (JsVal.obj [("orderId", JsVal.str "OID1")])).1
        = [Event.sign s "K", Event.gatewayCall u B]
      ∧ s = (B.getOpt "body").stringify) :=
  signed_payload_matches_transmitted_body ⟨"M", "K", "W", "C", "H"⟩ (some "TEST")
    (fun _ _ => "SIG") (.throw "network down") (.throw "network down") 0 0
    (JsVal.obj [("amount", JsVal.num 100), ("customerId", JsVal.str "cust1")])
    (JsVal.obj [("orderId", JsVal.str "OID1")])
    (by decide) (by decide) (by decide)

end PaytmPG
